import Mathlib

/-!
# Verification of the bcx-js subscription multiplexer and trading correlator

This development is a shallow embedding of the bcx-js client
(`src/lib/socket.ts`, `src/lib/bcx.ts`, `src/lib/types.ts`) in Lean 4,
faithful to the TypeScript source.  The single websocket connection, its
attached message handlers (closures in the source), the listener registry,
the promise objects created by the API, and the pending promise
continuations (`await`/`.then` chains) are represented explicitly:

* closures attached to the socket (`socketHandler`, `authHandler`,
  `tmpSocketHandler`) are defunctionalized as the inductive `Attached`;
* the client-level callbacks passed to `subscribe` are defunctionalized as
  `ClientCb` / `TradingCb`, keyed by the data they capture in the source;
* every promise created by the source gets a fresh numeric id in a promise
  heap; `resolve`/`reject` are first-write-wins, as in JS;
* code that runs after an `await` or inside a `.then` is recorded as a
  `Cont` and fired by `runConts` once the awaited promise settles, which
  models the (single-threaded, run-to-completion) microtask queue;
* an inbound websocket message is processed by `dispatchFrame`, which
  folds the frame over a snapshot of the attached handlers in attachment
  order (Node event emitters iterate over a copy of the handler array) and
  then drains the continuations.

The transport itself (opening the socket, JSON encoding) is external to
the repository and is modelled by the `wsPresent`/`connCount` fields and
by keeping frames as structured records; `addEventListener`, `on` and
`removeEventListener` are modelled as a uniform handler list keyed by
handler identity, which is how the source manifestly intends them.
-/

namespace Bcxjs

/-- The `Channel` enumeration of `types.ts`. -/
inductive Channel
  | auth | balances | heartbeat | l2 | l3 | prices | symbols | ticker | trades | trading
deriving DecidableEq, Repr

/-- String name of a channel, as used when the source concatenates the
channel into an error message. -/
def Channel.name : Channel → String
  | .auth => "auth"
  | .balances => "balances"
  | .heartbeat => "heartbeat"
  | .l2 => "l2"
  | .l3 => "l3"
  | .prices => "prices"
  | .symbols => "symbols"
  | .ticker => "ticker"
  | .trades => "trades"
  | .trading => "trading"

/-- The `ChannelEvent` enumeration of `types.ts`. -/
inductive ChannelEvent
  | subscribed | unsubscribed | rejected | snapshot | updated
deriving DecidableEq, Repr

/-- The `OrderStatus` enumeration of `types.ts` (`open` and `partial` are
Lean keywords, hence the longer constructor names). -/
inductive OrderStatus
  | cancelled | expired | openStatus | partFilled | pendingStatus | rejectedStatus
deriving DecidableEq, Repr

/-- The fields of an `Order` record that the trading correlator inspects
(`orderID`, `clOrdID`, `ordStatus`); the remaining fields of the wire
schema are payload the core never reads. -/
structure Order where
  orderID : String
  clOrdID : String
  ordStatus : OrderStatus
deriving DecidableEq, Repr

/-- A parameter set, e.g. `\x7b symbol: "BTC-USD" \x7d`.  The source compares
parameter sets by `JSON.stringify`; since all parameter objects in the
client are built with the same key order, stringify-equality coincides
with structural equality of the key/value list. -/
abbrev Params := List (String × String)

/-- An inbound frame, i.e. the parsed JSON of a websocket message.  Every
frame carries `channel` and `event`; the remaining fields are optional
payload, of which the client reads `text`, `clOrdID`, `orderID`,
`ordStatus` and `orders`. -/
structure Frame where
  channel : Channel
  event : ChannelEvent
  symbol : Option String := none
  text : Option String := none
  clOrdID : Option String := none
  orderID : Option String := none
  ordStatus : Option OrderStatus := none
  orders : List Order := []
deriving DecidableEq, Repr

/-- The `Action` enumeration of `types.ts`. -/
inductive Action
  | subscribeAction | unsubscribeAction | newOrderSingle | cancelOrderRequest
deriving DecidableEq, Repr

/-- An outbound frame written to the socket. -/
structure OutFrame where
  action : Action
  channel : Channel
  params : Params := []
  token : Option String := none
  orderID : Option String := none
  clOrdID : Option String := none
deriving DecidableEq, Repr

/-- The trading-channel callbacks of `bcx.ts`, defunctionalized.  Each
constructor records the data the corresponding closure captures:
`createOrderH` captures the request's `clOrdID` and the promise of the
enclosing `createOrder` call, `cancelOrderH` the `orderID` argument, and
so on.  `user` is an opaque caller-supplied callback identified by a
number; its invocations are recorded in the callback log. -/
inductive TradingCb
  | user (id : Nat)
  | createOrderH (clOrdID : String) (outerP : Nat)
  | cancelOrderH (orderID : String) (outerP : Nat)
  | cancelAllH (outerP : Nat)
  | getOpenOrdersH (outerP : Nat)
deriving DecidableEq, Repr

/-- The `clientListener` argument of the socket layer's `subscribe`,
defunctionalized.  `plain` is the wrapper built by `subscribeTicker` /
`subscribeMarket` (invoke the user callback, then resolve the wrapper
promise); `tradingWrap` is the wrapper built by `Bcx.subscribeTrading`
around a trading callback. -/
inductive ClientCb
  | plain (id : Nat) (outerP : Nat)
  | tradingWrap (cb : TradingCb) (outerP : Nat)
deriving DecidableEq, Repr

/-- The promise of the enclosing `new Promise` a client callback resolves
or rejects (`resolve`/`reject` captured by the wrapper closure). -/
def ClientCb.outer : ClientCb → Nat
  | .plain _ p => p
  | .tradingWrap _ p => p

/-- A registry entry of `socket.ts` (`interface Listener`): channel,
parameter set, client listener, and the identity of the `socketHandler`
closure, which captures the `resolve`/`reject` of the subscribe promise
`sockP`. -/
structure Listener where
  channel : Channel
  params : Params
  clientListener : ClientCb
  sockP : Nat
deriving DecidableEq, Repr

/-- A message handler attached to the websocket, identified the way the
source identifies closures: a subscription's `socketHandler` captures its
channel, params and subscribe promise; `authHandler` captures the
authentication promise; the `tmpSocketHandler` of `unsubscribe` captures
the removed listener and the unsubscribe promise. -/
inductive Attached
  | subH (channel : Channel) (params : Params) (sockP : Nat)
  | authH (p : Nat)
  | unsubH (removed : Listener) (p : Nat)
deriving DecidableEq, Repr

/-- State of a promise in the promise heap.  A promise settles at most
once; later `resolve`/`reject` calls are no-ops, as in JS. -/
inductive PromiseState
  | pending
  | resolvedUnit
  | resolvedFrame (f : Frame)
  | resolvedOrders (os : List Order)
  | resolvedUndef
  | rejectedWith (reason : String)
deriving DecidableEq, Repr

/-- A pending continuation: code of the source that runs after an `await`
or inside a `.then`/`catch`, waiting on the promise named in its first
argument. -/
inductive Cont
  /-- rest of the socket layer's `subscribe` after `await authenticate`. -/
  | subscribeAfterAuth (authP : Nat) (channel : Channel) (params : Params) (cl : ClientCb)
  /-- a wrapper's `try \x7b await subscribe(...) \x7d catch (err) \x7b reject(err) \x7d`:
  propagate rejection of `src` to `outer`, nothing on resolution. -/
  | catchP (src : Nat) (outer : Nat)
  /-- `await unsubscribe(Channel.TRADING); return resolve(trading)` inside a
  trading one-shot handler. -/
  | resolveFrameAfter (unsubP : Nat) (outerP : Nat) (result : Frame)
  /-- `await unsubscribe(Channel.TRADING); return reject(new Error(...))`. -/
  | rejectAfter (unsubP : Nat) (outerP : Nat) (reason : String)
  /-- `unsubscribe(Channel.TRADING).then(() => \x7b this.isSubscribedTrading = false \x7d)`
  of `unsubcribeTrading`; the `.then` result is the returned promise `outerP`. -/
  | clearFlagAfter (unsubP : Nat) (outerP : Nat)
  /-- `cancelOrder`, unsubscribed branch: after `await this.subscribeTrading(...)`
  resolves, `await send(CancelOrderRequest)`; on rejection the enclosing
  `catch` rejects `outerP`. -/
  | sendCancelAfter (subP : Nat) (outerP : Nat) (orderID : String)
  /-- `cancelAllOrders`: rest of the body after `await this.getOpenOrders()`. -/
  | cancelAllAfterOpenOrders (openP : Nat) (outerP : Nat)
  /-- `cancelAllOrders`: the cancel-command loop after `await this.subscribeTrading(...)`. -/
  | cancelAllSendsAfter (subP : Nat)
  /-- `cancelAllOrders` accumulator handler: `await unsubscribe(Channel.TRADING);
  resolve(orders)` once every tracked order is cancelled. -/
  | resolveOrdersAfter (unsubP : Nat) (outerP : Nat)
  /-- rest of the socket layer's `send` after `await authenticate`. -/
  | sendFrameAfterAuth (authP : Nat) (fr : OutFrame) (outerP : Option Nat)
  /-- subscribed-mode `createOrder`/`cancelOrder`: after `await send(...)`
  (deferred behind an authentication handshake), resolve with `undefined`;
  on send failure reject. -/
  | resolveUndefAfter (watch : Nat) (outerP : Nat)
deriving DecidableEq, Repr

/-- The whole client state: the `socket.ts` module state (`listeners`,
`isAuthed`, `_ws` with its attached handlers), the promise heap, the
pending continuations, a `Bcx` instance's fields (`apiSecret`,
`isSubscribedTrading`), the `orders` array captured by the
`cancelAllOrders` accumulator, and two ghost logs: the outbound frames
written to the socket and the invocations of user callbacks. -/
structure St where
  listeners : List Listener := []
  attached : List Attached := []
  isAuthed : Bool := false
  wsPresent : Bool := false
  connCount : Nat := 0
  promises : List (Nat × PromiseState) := []
  nextP : Nat := 0
  conts : List Cont := []
  trackedOrders : List Order := []
  isSubscribedTrading : Bool := false
  apiSecret : Option String := none
  sent : List OutFrame := []
  callbackLog : List (Nat × Frame) := []
deriving DecidableEq, Repr

/-- Read a promise; ids not in the heap are pending. -/
def getP (st : St) (p : Nat) : PromiseState :=
  match st.promises.lookup p with
  | some s => s
  | none => .pending

/-- Settle a promise (the shared body of `resolve` and `reject`): a no-op
unless the promise is still pending. -/
def settleP (st : St) (p : Nat) (v : PromiseState) : St :=
  if getP st p = .pending then
    { st with promises := (p, v) :: st.promises }
  else st

/-- Allocate a fresh pending promise. -/
def freshP (st : St) : Nat × St :=
  (st.nextP, { st with nextP := st.nextP + 1 })

/-- Allocate a promise that is already settled (e.g. `Promise.reject(...)`
returned synchronously). -/
def newPromiseWith (v : PromiseState) (st : St) : Nat × St :=
  let (p, st1) := freshP st
  (p, settleP st1 p v)

/-- `getListener(channel, params)` of `socket.ts`: find the first
registered listener whose channel and stringified params match. -/
def getListener (ls : List Listener) (ch : Channel) (ps : Params) : Option Listener :=
  ls.find? (fun l => decide (l.channel = ch ∧ l.params = ps))

/-- `if (!_ws) _ws = await getSocket()`: lazily establish the connection;
each establishment is counted so that a fresh connection is observable. -/
def ensureWs (st : St) : St :=
  if st.wsPresent then st else { st with wsPresent := true, connCount := st.connCount + 1 }

/-- Result of starting `authenticate`: either it resolved immediately
(`isAuthed` was already true) or a handshake is in flight. -/
inductive AuthStart
  | immediate
  | startedAuth (authP : Nat)
deriving DecidableEq, Repr

/-- `authenticate(ws, authToken)` of `socket.ts`, up to its suspension
point: if `isAuthed`, resolve immediately; otherwise attach the
`authHandler` observer and send the auth subscribe frame.  The handler's
behaviour on inbound frames is in `runHandler`. -/
def authenticate (tok : String) (st : St) : AuthStart × St :=
  if st.isAuthed then
    (.immediate, st)
  else
    let (p, st1) := freshP st
    (.startedAuth p,
      { st1 with
        attached := st1.attached ++ [.authH p],
        sent := st1.sent ++ [{ action := .subscribeAction, channel := .auth, token := some tok }] })

/-- Result of starting the socket layer's `subscribe`: an immediate
rejection (duplicate listener), a sent subscribe frame whose promise is
`sockP`, or a registration deferred behind an authentication handshake. -/
inductive SubStart
  | immediateReject (reason : String)
  | started (sockP : Nat)
  | waitingAuth (authP : Nat)
deriving DecidableEq, Repr

/-- The part of the socket layer's `subscribe` after the `await
authenticate` suspension point: push the `Listener`, attach its
`socketHandler`, send the subscribe frame.  The wrapper promise of the
caller (`subscribeTicker`, `subscribeTrading`, ...) rejects if the
subscribe promise rejects (`try/catch` in every wrapper), recorded as a
`catchP` continuation. -/
def finishSubscribe (ch : Channel) (ps : Params) (cl : ClientCb) (st : St) : SubStart × St :=
  let (p, st1) := freshP st
  let l : Listener := ⟨ch, ps, cl, p⟩
  (.started p,
    { st1 with
      listeners := st1.listeners ++ [l],
      attached := st1.attached ++ [.subH ch ps p],
      sent := st1.sent ++ [{ action := .subscribeAction, channel := ch, params := ps }],
      conts := st1.conts ++ [.catchP p cl.outer] })

/-- `subscribe(channel, listener, params, authToken?)` of `socket.ts`, up
to its suspension points: ensure the connection, reject a duplicate key
before any frame is sent, authenticate if a token was supplied, then
register and send. -/
def subscribe (ch : Channel) (ps : Params) (cl : ClientCb) (tok : Option String)
    (st : St) : SubStart × St :=
  let st := ensureWs st
  match getListener st.listeners ch ps with
  | some _ =>
      (.immediateReject ("You already have a listener set for channel " ++ ch.name), st)
  | none =>
      match tok with
      | none => finishSubscribe ch ps cl st
      | some t =>
          match authenticate t st with
          | (.immediate, st1) => finishSubscribe ch ps cl st1
          | (.startedAuth ap, st1) =>
              (.waitingAuth ap,
                { st1 with conts := st1.conts ++ [.subscribeAfterAuth ap ch ps cl] })

/-- Result of starting the socket layer's `unsubscribe`: either the
synchronous `throw` (`!_ws || !listener`) or the unsubscribe frame went
out and `unsubP` is the returned promise. -/
inductive UnsubStart
  | throwErr (msg : String)
  | started (unsubP : Nat) (removed : Listener)
deriving DecidableEq, Repr

/-- The registry filter of `unsubscribe`:
`listeners.filter(l => l.channel !== channel && JSON.stringify(l.params) !== JSON.stringify(params))`.
When `unsubscribe` is called without params, `JSON.stringify(undefined)`
is `undefined`, which differs from every stringified object. -/
def unsubKeep (ch : Channel) (ps : Option Params) (l : Listener) : Bool :=
  decide (l.channel ≠ ch) &&
    (match ps with
     | none => true
     | some p => decide (l.params ≠ p))

/-- `unsubscribe(channel, params?)` of `socket.ts`, up to its suspension
point: look the listener up (missing params default to the empty object in
`getListener`), throw if there is no connection or no listener, filter the
registry, detach the listener's `socketHandler`, attach the
`tmpSocketHandler` observer and send the unsubscribe frame.  The
observer's behaviour on inbound frames is in `runHandler`. -/
def unsubscribe (ch : Channel) (ps : Option Params) (st : St) : UnsubStart × St :=
  if st.wsPresent = false then
    (.throwErr ("You are not subscribed to the channel " ++ ch.name), st)
  else
    match getListener st.listeners ch (ps.getD []) with
    | none => (.throwErr ("You are not subscribed to the channel " ++ ch.name), st)
    | some l =>
        let st1 := { st with
          listeners := st.listeners.filter (unsubKeep ch ps),
          attached := st.attached.erase (.subH l.channel l.params l.sockP) }
        let (p, st2) := freshP st1
        (.started p l,
          { st2 with
            attached := st2.attached ++ [.unsubH l p],
            sent := st2.sent ++
              [{ action := .unsubscribeAction, channel := ch, params := ps.getD [] }] })

/-- `flush()` of `socket.ts`: drop the connection handle (and with it the
handlers attached to that socket object), clear the registry, reset the
authentication flag.  No frame is sent. -/
def flush (st : St) : St :=
  { st with wsPresent := false, attached := [], listeners := [], isAuthed := false }

/-- `send(request, authToken?)` of `socket.ts`: ensure a connection,
authenticate first if a token is supplied, then write the frame.  Returns
`some authP` when the write is deferred behind an authentication
handshake (the `sendFrameAfterAuth` continuation performs it). -/
def send (fr : OutFrame) (tok : Option String) (outerP : Option Nat) (st : St) :
    Option Nat × St :=
  let st := ensureWs st
  match tok with
  | none => (none, { st with sent := st.sent ++ [fr] })
  | some t =>
      match authenticate t st with
      | (.immediate, st1) => (none, { st1 with sent := st1.sent ++ [fr] })
      | (.startedAuth ap, st1) =>
          (some ap, { st1 with conts := st1.conts ++ [.sendFrameAfterAuth ap fr outerP] })

/-- `new Error(json.text).message`: the reason text carried on a rejection
frame (`undefined` when the field is absent, as in JS string coercion). -/
def Frame.reason (f : Frame) : String := f.text.getD "undefined"

/-- The synchronous prefix of
`await unsubscribe(Channel.TRADING); <continuation>` inside a trading
one-shot handler: run `unsubscribe` up to its suspension point and record
the continuation on its promise.  If `unsubscribe` throws, the handler's
async closure rejects unobserved and the continuation is dropped, as in
the source (the wrapper never awaits the handler). -/
def beginTeardown (mk : Nat → Cont) (st : St) : St :=
  match unsubscribe .trading none st with
  | (.throwErr _, st1) => st1
  | (.started up _, st1) => { st1 with conts := st1.conts ++ [mk up] }

/-- One inbound event delivered to a trading-channel callback of
`bcx.ts`: the body of the `switch (trading.event)` of the corresponding
closure.  (`subscribed` and `rejected` trading events never actually
reach these callbacks, because the socket layer's `socketHandler`
consumes them to settle the subscribe promise; the branches are still
modelled because they are in the source.) -/
def runTradingCb (cb : TradingCb) (f : Frame) (st : St) : St :=
  match cb with
  | .user id => { st with callbackLog := st.callbackLog ++ [(id, f)] }
  | .createOrderH cid outerP =>
      match f.event with
      | .subscribed | .unsubscribed | .snapshot => st
      | .updated =>
          if f.clOrdID = some cid then
            beginTeardown (fun up => .resolveFrameAfter up outerP f) st
          else st
      | .rejected =>
          beginTeardown
            (fun up => .rejectAfter up outerP
              ("Order " ++ cid ++ " rejected because " ++ f.reason)) st
  | .cancelOrderH oid outerP =>
      match f.event with
      | .subscribed | .unsubscribed | .snapshot => st
      | .updated =>
          if f.orderID = some oid ∧ f.ordStatus = some .cancelled then
            beginTeardown (fun up => .resolveFrameAfter up outerP f) st
          else st
      | .rejected =>
          beginTeardown
            (fun up => .rejectAfter up outerP
              ("Cancelling order " ++ oid ++ " rejected because " ++ f.reason)) st
  | .cancelAllH outerP =>
      match f.event with
      | .subscribed | .unsubscribed | .snapshot => st
      | .updated =>
          let st1 :=
            if f.ordStatus = some .cancelled then
              { st with trackedOrders := st.trackedOrders.map (fun o =>
                  if some o.orderID = f.orderID then { o with ordStatus := .cancelled } else o) }
            else st
          if st1.trackedOrders.filter (fun o => decide (o.ordStatus ≠ .cancelled)) = [] then
            beginTeardown (fun up => .resolveOrdersAfter up outerP) st1
          else st1
      | .rejected =>
          settleP st outerP
            (.rejectedWith ("Cancelling all orders rejected because " ++ f.reason))
  | .getOpenOrdersH outerP =>
      match f.event with
      | .snapshot => settleP st outerP (.resolvedOrders f.orders)
      | _ => st

/-- Invoke a `clientListener` on a data frame, as `socketHandler` does in
its `default:` branch.  `plain` wrappers log the user-callback invocation
and resolve the wrapper promise; the `subscribeTrading` wrapper first
runs its own `if (res.event == ChannelEvent.SUBSCRIBED)` flag update,
then the inner trading callback, then resolves the wrapper promise. -/
def invokeClient (cl : ClientCb) (f : Frame) (st : St) : St :=
  match cl with
  | .plain id outerP =>
      settleP { st with callbackLog := st.callbackLog ++ [(id, f)] } outerP .resolvedUnit
  | .tradingWrap cb outerP =>
      let st1 := if f.event = .subscribed then { st with isSubscribedTrading := true } else st
      settleP (runTradingCb cb f st1) outerP .resolvedUnit

/-- Deliver one inbound frame to one attached handler; the bodies of
`socketHandler` (of `subscribe`), `authHandler` (of `authenticate`) and
`tmpSocketHandler` (of `unsubscribe`) in `socket.ts`. -/
def runHandler (f : Frame) (h : Attached) (st : St) : St :=
  match h with
  | .authH p =>
      if f.channel = .auth then
        if f.event = .subscribed then
          settleP { st with isAuthed := true, attached := st.attached.erase (.authH p) }
            p .resolvedUnit
        else if f.event = .rejected then
          settleP st p (.rejectedWith f.reason)
        else st
      else st
  | .subH ch ps sockP =>
      if f.channel = ch then
        match getListener st.listeners ch ps with
        | none => settleP st sockP .resolvedUnit
        | some l =>
            match f.event with
            | .subscribed => settleP st sockP .resolvedUnit
            | .rejected => settleP st sockP (.rejectedWith f.reason)
            | _ => invokeClient l.clientListener f st
      else st
  | .unsubH removed p =>
      match f.event with
      | .unsubscribed =>
          settleP { st with attached := st.attached.erase (.unsubH removed p) } p .resolvedUnit
      | .rejected =>
          settleP
            { st with
              listeners := st.listeners ++ [removed],
              attached :=
                (st.attached ++ [Attached.subH removed.channel removed.params removed.sockP]).erase
                  (Attached.unsubH removed p) }
            p (.rejectedWith f.reason)
      | _ => st

/-- `enforceAuthToken` of `bcx.ts`: throw if no api secret was supplied.
The method name baked into the message is the one the source passes at
each call site (including its copy/paste slips). -/
def enforceMsg (method : String) : String :=
  method ++ " requires an api secret to be supplied as an argument during the Bcx class initialisation."

namespace Bcx

/-- `Bcx.subscribeTrading(callback)`: reject if `isSubscribedTrading` is
already set (the source then falls through and still attempts the socket
subscribe, because the reject is not followed by a return), wrap the
callback in the flag-updating arrow, and delegate to the socket layer's
`subscribe` on the trading channel with the api secret.  Returns the
promise the caller holds. -/
def subscribeTrading (cb : TradingCb) (st : St) : Nat × St :=
  match st.apiSecret with
  | none => newPromiseWith (.rejectedWith (enforceMsg "createOrder()")) st
  | some s =>
      let (p1, st1) := freshP st
      let st2 :=
        if st1.isSubscribedTrading then
          settleP st1 p1 (.rejectedWith "You are already subscribed to trading")
        else st1
      match subscribe .trading [] (.tradingWrap cb p1) (some s) st2 with
      | (.immediateReject r, st3) => (p1, settleP st3 p1 (.rejectedWith r))
      | (.started _, st3) => (p1, st3)
      | (.waitingAuth _, st3) => (p1, st3)

/-- `Bcx.subscribeTicker(symbol, callback)`: wrap the user callback and
delegate to the socket layer's `subscribe` on the ticker channel (no
token).  Returns the promise the caller holds, which the wrapper resolves
on the first delivered event. -/
def subscribeTicker (symbol : String) (cbId : Nat) (st : St) : Nat × St :=
  let (p, st1) := freshP st
  match subscribe .ticker [("symbol", symbol)] (.plain cbId p) none st1 with
  | (.immediateReject r, st2) => (p, settleP st2 p (.rejectedWith r))
  | (_, st2) => (p, st2)

/-- `Bcx.unsubscribeTicker(symbol)`: delegate to the socket layer's
`unsubscribe`; a synchronous throw surfaces as a rejected promise. -/
def unsubscribeTicker (symbol : String) (st : St) : Nat × St :=
  match unsubscribe .ticker (some [("symbol", symbol)]) st with
  | (.throwErr m, st1) => newPromiseWith (.rejectedWith m) st1
  | (.started up _, st1) => (up, st1)

/-- `Bcx.unsubcribeTrading()` (source spelling): reject when the flag is
down, otherwise delegate to `unsubscribe` and clear the flag on success
only (`.then`). -/
def unsubcribeTrading (st : St) : Nat × St :=
  match st.apiSecret with
  | none => newPromiseWith (.rejectedWith (enforceMsg "unsubcribeTrading()")) st
  | some _ =>
      if st.isSubscribedTrading = false then
        newPromiseWith (.rejectedWith "You not subscribed to trading") st
      else
        let (p, st1) := freshP st
        match unsubscribe .trading none st1 with
        | (.throwErr m, st2) => (p, settleP st2 p (.rejectedWith m))
        | (.started up _, st2) =>
            (p, { st2 with conts := st2.conts ++ [.clearFlagAfter up p] })

/-- `Bcx.createOrder(order)`: in subscribed mode send `NewOrderSingle`
and resolve with `undefined`; otherwise register the one-shot correlation
handler via `subscribeTrading` (without awaiting it - its rejection is
unobserved) and return the promise the handler settles.  Note the
unsubscribed branch of the source sends no order command. -/
def createOrder (clOrdID : String) (st : St) : Nat × St :=
  match st.apiSecret with
  | none => newPromiseWith (.rejectedWith (enforceMsg "createOrder()")) st
  | some s =>
      if st.isSubscribedTrading then
        let (p, st1) := freshP st
        match send { action := .newOrderSingle, channel := .trading, clOrdID := some clOrdID }
            (some s) (some p) st1 with
        | (none, st2) => (p, settleP st2 p .resolvedUndef)
        | (some ap, st2) => (p, { st2 with conts := st2.conts ++ [.resolveUndefAfter ap p] })
      else
        let (p0, st1) := freshP st
        let (_, st2) := subscribeTrading (.createOrderH clOrdID p0) st1
        (p0, st2)

/-- `Bcx.cancelOrder(orderID)`: in subscribed mode send
`CancelOrderRequest` and resolve with `undefined`; otherwise register the
one-shot correlation handler via `subscribeTrading`, and once that
resolves (first delivered trading event) send the cancel command. -/
def cancelOrder (orderID : String) (st : St) : Nat × St :=
  match st.apiSecret with
  | none => newPromiseWith (.rejectedWith (enforceMsg "cancelOrder()")) st
  | some s =>
      if st.isSubscribedTrading then
        let (p, st1) := freshP st
        match send { action := .cancelOrderRequest, channel := .trading, orderID := some orderID }
            (some s) (some p) st1 with
        | (none, st2) => (p, settleP st2 p .resolvedUndef)
        | (some ap, st2) => (p, { st2 with conts := st2.conts ++ [.resolveUndefAfter ap p] })
      else
        let (p0, st1) := freshP st
        let (p1, st2) := subscribeTrading (.cancelOrderH orderID p0) st1
        (p0, { st2 with conts := st2.conts ++ [.sendCancelAfter p1 p0 orderID] })

/-- `Bcx.getOpenOrders()`: throw when subscribed to trading; otherwise
open a trading subscription whose handler resolves with the order list of
the first snapshot event (and leave that subscription open). -/
def getOpenOrders (st : St) : Nat × St :=
  match st.apiSecret with
  | none => newPromiseWith (.rejectedWith (enforceMsg "getOpenOrders()")) st
  | some _ =>
      if st.isSubscribedTrading then
        newPromiseWith (.rejectedWith "You cant fetch open orders if you are subscribed to trading. Either end your subscription and make this call or restart it catching the SNAPSHOT event which includes your open orders") st
      else
        let (pg, st1) := freshP st
        let (p1, st2) := subscribeTrading (.getOpenOrdersH pg) st1
        (pg, { st2 with conts := st2.conts ++ [.catchP p1 pg] })

/-- `Bcx.cancelAllOrders()`: throw when subscribed to trading; otherwise
fetch the open orders and continue (`cancelAllAfterOpenOrders`) once the
snapshot has resolved them. -/
def cancelAllOrders (st : St) : Nat × St :=
  match st.apiSecret with
  | none => newPromiseWith (.rejectedWith (enforceMsg "cancelAllOrders()")) st
  | some _ =>
      if st.isSubscribedTrading then
        newPromiseWith (.rejectedWith "You cant cancel all open orders if you are subscribed to trading. Either end your subscription and make this call again or restart it catching the SNAPSHOT event which includes your open orders, then cancel them individually") st
      else
        let (p0, st1) := freshP st
        let (pg, st2) := getOpenOrders st1
        (p0, { st2 with conts := st2.conts ++ [.cancelAllAfterOpenOrders pg p0] })

/-- `Bcx.flush()`: reset the instance fields and the socket module
state. -/
def flushClient (st : St) : St :=
  flush { st with apiSecret := none, isSubscribedTrading := false }

end Bcx

/-- The body of `cancelAllOrders` after `await this.getOpenOrders()`
yields `orders`: resolve immediately when there are no open orders (the
source does not return here and still attempts the second subscription),
then open the accumulator subscription and, once it resolves, issue one
cancel command per open order.  Rejection of the second `subscribeTrading`
is caught and rejects the aggregate promise. -/
def cancelAllContinue (os : List Order) (outerP : Nat) (st : St) : St :=
  let st1 := if os.isEmpty then settleP st outerP .resolvedUndef else st
  let st2 := { st1 with trackedOrders := os }
  let (p2, st3) := Bcx.subscribeTrading (.cancelAllH outerP) st2
  { st3 with conts := st3.conts ++ [.catchP p2 outerP, .cancelAllSendsAfter p2] }

/-- Run one pending continuation against the current state: `none` while
its promise is still pending, `some st` once it fires (and is removed). -/
def runCont (c : Cont) (st : St) : Option St :=
  match c with
  | .subscribeAfterAuth ap ch ps cl =>
      match getP st ap with
      | .pending => none
      | .rejectedWith r => some (settleP st cl.outer (.rejectedWith r))
      | _ => some (finishSubscribe ch ps cl st).2
  | .catchP src outer =>
      match getP st src with
      | .pending => none
      | .rejectedWith r => some (settleP st outer (.rejectedWith r))
      | _ => some st
  | .resolveFrameAfter up outer f =>
      match getP st up with
      | .pending => none
      | .rejectedWith _ => some st
      | _ => some (settleP st outer (.resolvedFrame f))
  | .rejectAfter up outer r =>
      match getP st up with
      | .pending => none
      | .rejectedWith _ => some st
      | _ => some (settleP st outer (.rejectedWith r))
  | .clearFlagAfter up outer =>
      match getP st up with
      | .pending => none
      | .rejectedWith r => some (settleP st outer (.rejectedWith r))
      | _ => some (settleP { st with isSubscribedTrading := false } outer .resolvedUnit)
  | .sendCancelAfter sp outer oid =>
      match getP st sp with
      | .pending => none
      | .rejectedWith r => some (settleP st outer (.rejectedWith r))
      | _ =>
          let fr : OutFrame :=
            { action := .cancelOrderRequest, channel := .trading, orderID := some oid }
          let (d, st1) := send fr st.apiSecret (some outer) st
          match d with
          | none => some st1
          | some ap => some { st1 with conts := st1.conts ++ [.catchP ap outer] }
  | .cancelAllAfterOpenOrders op outer =>
      match getP st op with
      | .pending => none
      | .rejectedWith r => some (settleP st outer (.rejectedWith r))
      | .resolvedOrders os => some (cancelAllContinue os outer st)
      | _ => some st
  | .cancelAllSendsAfter sp =>
      match getP st sp with
      | .pending => none
      | .rejectedWith _ => some st
      | _ =>
          some (st.trackedOrders.foldl (fun s o =>
            (send { action := .cancelOrderRequest, channel := .trading, orderID := some o.orderID }
              none none s).2) st)
  | .resolveOrdersAfter up outer =>
      match getP st up with
      | .pending => none
      | .rejectedWith _ => some st
      | _ => some (settleP st outer (.resolvedOrders st.trackedOrders))
  | .sendFrameAfterAuth ap fr outer =>
      match getP st ap with
      | .pending => none
      | .rejectedWith r =>
          some (match outer with
                | some o => settleP st o (.rejectedWith r)
                | none => st)
      | _ => some { st with sent := st.sent ++ [fr] }
  | .resolveUndefAfter w outer =>
      match getP st w with
      | .pending => none
      | .rejectedWith r => some (settleP st outer (.rejectedWith r))
      | _ => some (settleP st outer .resolvedUndef)

/-- One pass over the continuation queue: try each pending continuation
(in order) against the evolving state, removing the ones that fire. -/
def runContsOnce (st : St) : St :=
  st.conts.foldl (fun s c =>
    match runCont c s with
    | some s2 => { s2 with conts := s2.conts.erase c }
    | none => s) st

/-- Drain the microtask queue after an inbound frame: three passes over
the continuations suffice for every chain the source builds (a settled
promise firing a continuation that settles a promise watched by a later
continuation). -/
def runConts (st : St) : St :=
  runContsOnce (runContsOnce (runContsOnce st))

/-- Deliver one inbound frame: every handler attached to the socket at
arrival time sees the frame, in attachment order (Node event emitters
iterate over a copy of the handler array, so handlers removed mid-dispatch
still see the current frame and handlers added mid-dispatch do not); then
the settled promises run their continuations. -/
def dispatchFrame (f : Frame) (st : St) : St :=
  runConts (st.attached.foldl (fun s h => runHandler f h s) st)

/-! ## Scenario states

Concrete reachable states used by the theorems below.  They are built by
running the model itself from an empty state (or, for the trading
scenarios, from a state in which a connection exists and the
authentication handshake has already completed, as after any prior
authenticated call). -/

/-- Fresh module state: no connection, no listeners, not authenticated. -/
def initialSt : St := {}

/-- Client state with an established, already authenticated connection
and an api secret: the starting point of the trading scenarios. -/
def tradingReadySt : St :=
  { apiSecret := some "sk", wsPresent := true, connCount := 1, isAuthed := true }

/-- Acknowledgement frame for a trading subscribe request. -/
def subscribedAck : Frame := { channel := .trading, event := .subscribed }

/-- Initial snapshot event on the trading channel (no payload needed). -/
def tradingSnap : Frame := { channel := .trading, event := .snapshot }

/-- Acknowledgement frame for a trading unsubscribe request. -/
def unsubAck : Frame := { channel := .trading, event := .unsubscribed }

/-- State after subscribing the ticker for BTC-USD (user callback `0`)
and for ETH-USD (user callback `1`) and receiving a subscribe
acknowledgement on the ticker channel. -/
def tickerBtcEth : St :=
  dispatchFrame { channel := .ticker, event := .subscribed, symbol := some "BTC-USD" }
    (Bcx.subscribeTicker "ETH-USD" 1 (Bcx.subscribeTicker "BTC-USD" 0 initialSt).2).2

/-- A ticker data frame the server tags for the ETH-USD parameter set. -/
def ethUpdate : Frame := { channel := .ticker, event := .updated, symbol := some "ETH-USD" }

/-- A single active subscription on channel `ch` with parameter set `ps`
and user callback `cbId`: the listener is registered, its socket handler
attached, and both the subscribe promise (id 0) and the wrapper promise
(id 1) have resolved.  This is the state `subscribeTicker` reaches after
the acknowledgement and a first delivered event. -/
def oneSubSt (ch : Channel) (ps : Params) (cbId : Nat) : St :=
  { listeners := [⟨ch, ps, .plain cbId 1, 0⟩],
    attached := [.subH ch ps 0],
    wsPresent := true, connCount := 1,
    promises := [(0, .resolvedUnit), (1, .resolvedUnit)],
    nextP := 2 }

/-- The state `unsubscribe ch (some ps)` leaves behind from `oneSubSt`,
before any acknowledgement arrives: listener removed, socket handler
detached, `tmpSocketHandler` attached, unsubscribe frame sent. -/
def oneSubMid (ch : Channel) (ps : Params) (cbId : Nat) : St :=
  { listeners := [],
    attached := [.unsubH ⟨ch, ps, .plain cbId 1, 0⟩ 2],
    wsPresent := true, connCount := 1,
    promises := [(0, .resolvedUnit), (1, .resolvedUnit)],
    nextP := 3,
    sent := [{ action := .unsubscribeAction, channel := ch, params := ps }] }

/-- The state after the server rejects the unsubscribe request from
`oneSubMid`: the listener is back, its socket handler re-attached, the
unsubscribe promise (id 2) rejected with the reason from the server. -/
def oneSubRestored (ch : Channel) (ps : Params) (cbId : Nat) (r : String) : St :=
  { listeners := [⟨ch, ps, .plain cbId 1, 0⟩],
    attached := [.subH ch ps 0],
    wsPresent := true, connCount := 1,
    promises := [(2, .rejectedWith r), (0, .resolvedUnit), (1, .resolvedUnit)],
    nextP := 3,
    sent := [{ action := .unsubscribeAction, channel := ch, params := ps }] }

/-- A state with a registered ticker listener, used to witness the
duplicate-subscribe theorem. -/
def dupSt : St :=
  { listeners := [⟨.ticker, [("symbol", "BTC-USD")], .plain 0 0, 1⟩],
    attached := [.subH .ticker [("symbol", "BTC-USD")] 1],
    wsPresent := true, connCount := 1, nextP := 2 }

/-- State in the middle of an authentication handshake: `authenticate`
was called on a fresh connection, the `authHandler` observer (promise
id 0) is attached and the auth subscribe frame has been sent. -/
def authInFlight : St := (authenticate "tok" { wsPresent := true, connCount := 1 }).2

/-- The promise and state returned by `Bcx.createOrder` for clOrdID
`"X"` in unsubscribed trading mode. -/
def createOrderStart : Nat × St := Bcx.createOrder "X" tradingReadySt

/-- `createOrder` scenario after the trading subscribe acknowledgement
and the initial snapshot: the one-shot handler is waiting for an update
matching clOrdID `"X"`; the promise it settles is id 0. -/
def createOrderWaiting : St :=
  dispatchFrame tradingSnap (dispatchFrame subscribedAck createOrderStart.2)

/-- The update event that matches the `createOrder` scenario request. -/
def createOrderMatch : Frame :=
  { channel := .trading, event := .updated, clOrdID := some "X", ordStatus := some .openStatus }

/-- The promise and state returned by `Bcx.cancelOrder` for orderID
`"OID"` in unsubscribed trading mode. -/
def cancelOrderStart : Nat × St := Bcx.cancelOrder "OID" tradingReadySt

/-- `cancelOrder` scenario after the trading subscribe acknowledgement
and the initial snapshot (which releases the cancel command): the
one-shot handler waits for a cancelled update of order `"OID"`; the
promise it settles is id 0. -/
def cancelOrderWaiting : St :=
  dispatchFrame tradingSnap (dispatchFrame subscribedAck cancelOrderStart.2)

/-- `cancelOrderWaiting`, written out: used to drive parametric frames
through the dispatch function symbolically. -/
def cancelOrderWaitingLit : St :=
  { listeners := [⟨.trading, [], .tradingWrap (.cancelOrderH "OID" 0) 1, 2⟩],
    attached := [.subH .trading [] 2],
    isAuthed := true, wsPresent := true, connCount := 1,
    promises := [(1, .resolvedUnit), (2, .resolvedUnit)],
    nextP := 3, apiSecret := some "sk",
    sent := [{ action := .subscribeAction, channel := .trading },
             { action := .cancelOrderRequest, channel := .trading, orderID := some "OID" }] }

/-- The update event that matches the `cancelOrder` scenario: right
orderID and cancelled status. -/
def cancelOrderMatch : Frame :=
  { channel := .trading, event := .updated, orderID := some "OID", ordStatus := some .cancelled }

/-- Two open orders, as carried by an open-orders snapshot. -/
def openOrder1 : Order := { orderID := "o1", clOrdID := "c1", ordStatus := .openStatus }

/-- Second open order of the `cancelAllOrders` scenario. -/
def openOrder2 : Order := { orderID := "o2", clOrdID := "c2", ordStatus := .openStatus }

/-- The promise and state returned by `Bcx.cancelAllOrders` in
unsubscribed trading mode (promise id 0). -/
def cancelAllStart : Nat × St := Bcx.cancelAllOrders tradingReadySt

/-- `cancelAllOrders` scenario after the trading subscribe
acknowledgement of the open-orders fetch. -/
def cancelAllAcked : St := dispatchFrame subscribedAck cancelAllStart.2

/-! ## Helper lemmas -/

/-- `ensureWs` never touches the listener registry. -/
theorem ensureWs_listeners (st : St) : (ensureWs st).listeners = st.listeners := by
  unfold ensureWs; split <;> rfl

/-- `ensureWs` sends nothing. -/
theorem ensureWs_sent (st : St) : (ensureWs st).sent = st.sent := by
  unfold ensureWs; split <;> rfl

/-- `ensureWs` never touches the attached handlers. -/
theorem ensureWs_attached (st : St) : (ensureWs st).attached = st.attached := by
  unfold ensureWs; split <;> rfl

/-- Effect of `unsubscribe` on a single active subscription, before any
acknowledgement: the listener is removed and its handler detached, the
transient observer is attached and the unsubscribe frame goes out. -/
theorem oneSub_unsub_eq (ch : Channel) (ps : Params) (cbId : Nat) :
    unsubscribe ch (some ps) (oneSubSt ch ps cbId) =
      (.started 2 ⟨ch, ps, .plain cbId 1, 0⟩, oneSubMid ch ps cbId) := by
  simp [unsubscribe, oneSubSt, oneSubMid, getListener, unsubKeep, freshP, List.erase]

/-- Effect of a rejected unsubscribe acknowledgement: the transient
observer restores the removed listener and its handler and rejects the
unsubscribe promise with the reason from the server. -/
theorem oneSub_restore_eq (ch : Channel) (ps : Params) (cbId : Nat) (r : String) :
    dispatchFrame { channel := ch, event := .rejected, text := some r } (oneSubMid ch ps cbId) =
      oneSubRestored ch ps cbId r := by
  simp [dispatchFrame, oneSubMid, oneSubRestored, runHandler, runConts, runContsOnce,
    settleP, getP, List.erase, Frame.reason, List.lookup]

/-- After the compensating restore, a data frame on the subscription's
channel still reaches the original user callback. -/
theorem oneSub_delivery (ch : Channel) (ps : Params) (cbId : Nat) (r : String) (f : Frame)
    (hch : f.channel = ch) (hev : f.event = .updated) :
    (dispatchFrame f (oneSubRestored ch ps cbId r)).callbackLog = [(cbId, f)] := by
  simp [dispatchFrame, oneSubRestored, runHandler, runConts, runContsOnce, hch, hev,
    getListener, invokeClient, settleP, getP, List.lookup]

/-- The `cancelOrder` waiting state, evaluated. -/
theorem cancelOrderWaiting_eq : cancelOrderWaiting = cancelOrderWaitingLit := by decide

/-! ## Claim theorems -/

/-- C1, counterexample.  The claim states that with ticker subscriptions
for BTC-USD (callback 0) and ETH-USD (callback 1) active concurrently,
each callback is invoked only for frames of its own symbol and never for
frames belonging to the other subscription.  This is false: dispatching a
ticker data frame the server tags for ETH-USD invokes callback 0, the
one registered for BTC-USD, because `socketHandler` matches inbound
frames by channel only. -/
theorem c1_cross_symbol_delivery :
    (0, ethUpdate) ∈ (dispatchFrame ethUpdate tickerBtcEth).callbackLog := by
  decide

/-- C1, amended.  Two ticker subscriptions with different symbols
coexist, their subscribe promises both resolve, and every inbound data
frame on the ticker channel - whatever symbol the server tags it with -
is delivered to both callbacks: the multiplexer performs no
parameter-level filtering of data frames. -/
theorem c1_channel_level_broadcast (sym : String) :
    (let f : Frame := { channel := .ticker, event := .updated, symbol := some sym }
     (dispatchFrame f tickerBtcEth).callbackLog = [(0, f), (1, f)]) ∧
    getP tickerBtcEth 1 = .resolvedUnit ∧ getP tickerBtcEth 3 = .resolvedUnit := by
  exact ⟨rfl, rfl, rfl⟩

/-- C2.  The claim states that the TradingMode flag moves to Subscribed
on subscribeTrading success.  Evaluating the code on a successful
handshake (subscribe acknowledgement, then the initial snapshot, which
resolves the `subscribeTrading` promise) shows `isSubscribedTrading` is
still false afterwards - the flag-setting branch of the `subscribeTrading`
callback tests for a `subscribed` event that the socket layer consumes
instead of forwarding - and a subsequent `unsubcribeTrading` therefore
rejects. -/
theorem c2_trading_mode_never_set :
    (let s := dispatchFrame tradingSnap
        (dispatchFrame subscribedAck (Bcx.subscribeTrading (.user 0) tradingReadySt).2)
     getP s (Bcx.subscribeTrading (.user 0) tradingReadySt).1 = .resolvedUnit ∧
     s.isSubscribedTrading = false ∧
     getP (Bcx.unsubcribeTrading s).2 (Bcx.unsubcribeTrading s).1 =
       .rejectedWith "You not subscribed to trading") := by
  exact ⟨by decide, by decide, by decide⟩

/-- C3.  The claim states that `unsubscribe(ticker, BTC-USD)` removes
exactly that one listener and leaves every listener under a different
key intact.  Evaluating the code on a registry holding ticker listeners
for BTC-USD and ETH-USD shows the registry is left empty - the filter
condition removes every listener that shares the channel or shares the
parameter set - and a subsequent ETH-USD data frame no longer reaches
any callback. -/
theorem c3_unsubscribe_removes_unrelated_listener :
    (unsubscribe .ticker (some [("symbol", "BTC-USD")]) tickerBtcEth).2.listeners = [] ∧
    (dispatchFrame ethUpdate
      (unsubscribe .ticker (some [("symbol", "BTC-USD")]) tickerBtcEth).2).callbackLog = [] := by
  exact ⟨by decide, by decide⟩

/-- C4.  For `createOrder` with clOrdID X in unsubscribed mode: an
update event with a different clOrdID leaves the promise pending and the
temporary subscription in place; an update event with clOrdID X tears
the temporary subscription down (listener removed, unsubscribe frame
sent) and, once the unsubscribe is acknowledged, resolves the promise
with that event.  The final conjunct evaluates the code at the failing
input of the claim: an inbound rejection event on the trading channel is
consumed by the socket layer (a reject of the already settled subscribe
promise) instead of reaching the one-shot handler, so the promise stays
pending and the temporary subscription is not torn down, where the claim
says it rejects with the reason from the server. -/
theorem c4_create_order_correlation :
    (let sOther := dispatchFrame
        { channel := .trading, event := .updated, clOrdID := some "Y" } createOrderWaiting
     getP sOther 0 = .pending ∧ sOther.listeners = createOrderWaiting.listeners) ∧
    (let sMatch := dispatchFrame createOrderMatch createOrderWaiting
     sMatch.listeners = [] ∧
     { action := .unsubscribeAction, channel := .trading : OutFrame } ∈ sMatch.sent ∧
     getP (dispatchFrame unsubAck sMatch) 0 = .resolvedFrame createOrderMatch) ∧
    (let sRej := dispatchFrame
        { channel := .trading, event := .rejected, text := some "insufficient funds" }
        createOrderWaiting
     getP sRej 0 = .pending ∧ sRej.listeners = createOrderWaiting.listeners) := by
  refine ⟨⟨by decide, by decide⟩, ⟨by decide, by decide, by decide⟩, by decide, by decide⟩

/-- C5.  For every state, channel, parameter set, callback and optional
token: if a listener already exists for the key, `subscribe` rejects
immediately with the duplicate-subscription error, and the state is left
exactly as `ensureWs` left it - registry, outbound frames and attached
handlers unchanged. -/
theorem c5_duplicate_subscribe_rejected (ch : Channel) (ps : Params) (cl : ClientCb)
    (tok : Option String) (st : St) (l : Listener)
    (h : getListener st.listeners ch ps = some l) :
    subscribe ch ps cl tok st =
      (.immediateReject ("You already have a listener set for channel " ++ ch.name),
        ensureWs st) ∧
    (ensureWs st).listeners = st.listeners ∧
    (ensureWs st).sent = st.sent ∧
    (ensureWs st).attached = st.attached := by
  refine ⟨?_, ensureWs_listeners st, ensureWs_sent st, ensureWs_attached st⟩
  simp only [subscribe, ensureWs_listeners, h]

/-- C5, witness: a concrete registry with a BTC-USD ticker listener and
a second subscribe on the same key. -/
theorem c5_duplicate_subscribe_rejected_witness :
    getListener dupSt.listeners .ticker [("symbol", "BTC-USD")] =
        some ⟨.ticker, [("symbol", "BTC-USD")], .plain 0 0, 1⟩ ∧
    subscribe .ticker [("symbol", "BTC-USD")] (.plain 2 5) none dupSt =
      (.immediateReject ("You already have a listener set for channel " ++ Channel.ticker.name),
        ensureWs dupSt) :=
  ⟨by decide,
    (c5_duplicate_subscribe_rejected .ticker [("symbol", "BTC-USD")] (.plain 2 5) none dupSt
      ⟨.ticker, [("symbol", "BTC-USD")], .plain 0 0, 1⟩ (by decide)).1⟩

/-- C6.  For an active subscription (any channel, parameter set and
callback), calling `unsubscribe` and then receiving a rejected
acknowledgement with reason `r` leaves the returned promise rejected
with `r`, the original listener back in the registry with its socket
handler re-attached, and any subsequent data frame for that channel is
still delivered to the original callback. -/
theorem c6_rejected_unsubscribe_restores (ch : Channel) (ps : Params) (cbId : Nat)
    (r : String) (f : Frame) (hch : f.channel = ch) (hev : f.event = .updated) :
    (unsubscribe ch (some ps) (oneSubSt ch ps cbId)).1 =
      .started 2 ⟨ch, ps, .plain cbId 1, 0⟩ ∧
    (let st2 := dispatchFrame { channel := ch, event := .rejected, text := some r }
        (unsubscribe ch (some ps) (oneSubSt ch ps cbId)).2
     getP st2 2 = .rejectedWith r ∧
     st2.listeners = [⟨ch, ps, .plain cbId 1, 0⟩] ∧
     st2.attached = [.subH ch ps 0] ∧
     (dispatchFrame f st2).callbackLog = [(cbId, f)]) := by
  have h1 := oneSub_unsub_eq ch ps cbId
  simp only [h1, oneSub_restore_eq]
  refine ⟨trivial, rfl, rfl, rfl, oneSub_delivery ch ps cbId r f hch hev⟩

/-- C6, witness: the ticker channel with the BTC-USD parameter set,
callback 5, rejection reason "denied", and a subsequent BTC-USD update
frame. -/
theorem c6_rejected_unsubscribe_restores_witness :
    (let f : Frame := { channel := .ticker, event := .updated, symbol := some "BTC-USD" }
     f.channel = Channel.ticker ∧ f.event = ChannelEvent.updated ∧
     (dispatchFrame f
        (dispatchFrame { channel := .ticker, event := .rejected, text := some "denied" }
          (unsubscribe .ticker (some [("symbol", "BTC-USD")])
            (oneSubSt .ticker [("symbol", "BTC-USD")] 5)).2)).callbackLog =
       [(5, { channel := .ticker, event := .updated, symbol := some "BTC-USD" })]) :=
  ⟨rfl, rfl,
    (c6_rejected_unsubscribe_restores .ticker [("symbol", "BTC-USD")] 5 "denied"
      { channel := .ticker, event := .updated, symbol := some "BTC-USD" } rfl rfl).2.2.2.2⟩

/-- C7.  The claim describes `cancelAllOrders` issuing one cancel per
open order and resolving once all are cancelled.  Evaluating the code:
with a two-order snapshot the aggregate promise rejects with the
duplicate-subscription error (the open-orders fetch leaves its temporary
trading subscription registered, so the accumulator subscription is
refused) and no cancel command is ever sent; with an empty snapshot the
promise resolves with `undefined`. -/
theorem c7_cancel_all_duplicate_subscription :
    (let s := dispatchFrame
        { channel := .trading, event := .snapshot, orders := [openOrder1, openOrder2] }
        cancelAllAcked
     getP s 0 = .rejectedWith "You already have a listener set for channel trading" ∧
     s.sent.filter (fun fr => fr.action = Action.cancelOrderRequest) = []) ∧
    (let sEmpty := dispatchFrame
        { channel := .trading, event := .snapshot, orders := [] } cancelAllAcked
     getP sEmpty 0 = .resolvedUndef) := by
  refine ⟨⟨by decide, by decide⟩, by decide⟩

/-- C8.  For `cancelOrder("OID")` in unsubscribed mode, in the waiting
state reached after the acknowledgement and the snapshot released the
cancel command: an update event whose orderID or status does not match
(in particular a different terminal status for the same orderID) leaves
the state completely unchanged - promise pending, temporary subscription
still waiting; the update event with orderID "OID" and cancelled status
tears the subscription down and, once the unsubscribe is acknowledged,
resolves the promise with that event.  The cancel command itself was
sent exactly once. -/
theorem c8_cancel_order_matches_only_cancelled :
    (∀ oid ost, ¬(oid = "OID" ∧ ost = OrderStatus.cancelled) →
      dispatchFrame
        { channel := .trading, event := .updated, orderID := some oid, ordStatus := some ost }
        cancelOrderWaiting = cancelOrderWaiting) ∧
    (dispatchFrame cancelOrderMatch cancelOrderWaiting).listeners = [] ∧
    getP (dispatchFrame unsubAck (dispatchFrame cancelOrderMatch cancelOrderWaiting)) 0 =
      .resolvedFrame cancelOrderMatch ∧
    cancelOrderWaiting.sent.filter (fun fr => fr.action = Action.cancelOrderRequest) =
      [{ action := .cancelOrderRequest, channel := .trading, orderID := some "OID" }] := by
  refine ⟨?_, by decide, by decide, by decide⟩
  intro oid ost h
  rw [cancelOrderWaiting_eq]
  simp [dispatchFrame, runHandler, getListener, invokeClient, runTradingCb, runConts,
    runContsOnce, settleP, getP, List.lookup, cancelOrderWaitingLit, Option.some.injEq, h]

/-- C8, witness: an update for the right orderID with status expired (a
different terminal status) leaves the waiting state unchanged. -/
theorem c8_cancel_order_matches_only_cancelled_witness :
    ¬("OID" = "OID" ∧ OrderStatus.expired = OrderStatus.cancelled) ∧
    dispatchFrame
      { channel := .trading, event := .updated, orderID := some "OID",
        ordStatus := some .expired } cancelOrderWaiting = cancelOrderWaiting :=
  ⟨by decide,
    c8_cancel_order_matches_only_cancelled.1 "OID" OrderStatus.expired (by decide)⟩

/-- C9, counterexample.  The claim states the transient auth observer is
removed once the promise settles regardless of outcome.  This is false
for the rejected outcome: after the server answers the auth channel with
a rejected acknowledgement, the observer is still attached (the source
only calls removeEventListener in the subscribed branch). -/
theorem c9_auth_observer_leak :
    Attached.authH 0 ∈
      (dispatchFrame { channel := .auth, event := .rejected, text := some "bad key" }
        authInFlight).attached := by
  decide

/-- C9, amended.  On a subscribed answer the observer is removed,
AuthenticationState becomes true and the promise resolves; on a rejected
answer the promise rejects with the reason from the server and
AuthenticationState stays false, but the observer remains attached. -/
theorem c9_auth_observer_removal (r : String) :
    (let ok := dispatchFrame { channel := .auth, event := .subscribed } authInFlight
     ok.attached = [] ∧ ok.isAuthed = true ∧ getP ok 0 = .resolvedUnit) ∧
    (let no := dispatchFrame { channel := .auth, event := .rejected, text := some r } authInFlight
     no.attached = [Attached.authH 0] ∧ no.isAuthed = false ∧ getP no 0 = .rejectedWith r) := by
  exact ⟨⟨rfl, rfl, rfl⟩, ⟨rfl, rfl, rfl⟩⟩

/-- C10.  For every state, `flush` empties the listener registry, resets
AuthenticationState, discards the connection handle, and sends no frame;
and every subsequently issued subscribe with an auth token establishes a
fresh connection (the connection counter increases) and starts a fresh
authentication handshake (the auth subscribe frame is the only new
outbound frame and the returned promise waits on the handshake). -/
theorem c10_flush_resets_state (st : St) :
    (flush st).listeners = [] ∧ (flush st).isAuthed = false ∧
    (flush st).wsPresent = false ∧ (flush st).sent = st.sent ∧
    (∀ ch ps cl t, (subscribe ch ps cl (some t) (flush st)).1 = .waitingAuth st.nextP ∧
      (subscribe ch ps cl (some t) (flush st)).2.connCount = st.connCount + 1 ∧
      (subscribe ch ps cl (some t) (flush st)).2.sent =
        st.sent ++ [{ action := .subscribeAction, channel := .auth, token := some t }]) := by
  exact ⟨rfl, rfl, rfl, rfl, fun ch ps cl t => ⟨rfl, rfl, rfl⟩⟩

end Bcxjs
